import Mathlib

/-!
Verification development for the Airbnb automation pipeline.

Shallow embedding of the extraction algorithms, persistence
operations and orchestrator control flow:
  * `automation/steps/step02_suggestion.py` — suggestion harvesting
  * `automation/steps/step05_results.py`    — listing scraping (primary/fallback)
  * `automation/steps/step06_details.py`    — detail page step, gallery extraction, upsert
  * `automation/services/database_service.py` — persistence operations
  * `automation/services/browser_service.py`  — navigate / take_screenshot
  * `automation/management/commands/run_airbnb_automation.py` — orchestrator

Python / JS strings are modelled as Lean `String` (a list of unicode chars,
matching the per-character slicing semantics of Python); DOM content is modelled
as explicit structures carrying the attribute values the extraction code
reads; browser and database effects are modelled by explicit state passing
plus event traces.
-/

/-! ### String primitives (Python / JS semantics) -/

/-- Python `s[:n]` / JS `s.slice(0, n)`: first `n` characters. -/
def pyTake (s : String) (n : Nat) : String := String.mk (s.data.take n)

/-- Whitespace set of Python `str.strip()` / JS `String.trim` for the
characters occurring in this code base. -/
def pyIsSpace (c : Char) : Bool :=
  c = ' ' || c = '\t' || c = '\n' || c = '\r' || c = '\x0b' || c = '\x0c'

/-- Python `s.strip()` (no argument): drop leading and trailing whitespace. -/
def pyStrip (s : String) : String :=
  String.mk (((s.data.dropWhile pyIsSpace).reverse.dropWhile pyIsSpace).reverse)

/-- JS `s.trim()`: same whitespace behaviour as `pyStrip` on the characters used here. -/
def jsTrim (s : String) : String := pyStrip s

/-- Python `s.rstrip("/")`: drop trailing slash characters. -/
def rstripSlashes (s : String) : String :=
  String.mk ((s.data.reverse.dropWhile (fun c => c = '/')).reverse)

/-- Python single-character `str.replace`, as used to collapse newlines to spaces. -/
def replaceChar (s : String) (c d : Char) : String :=
  String.mk (s.data.map (fun x => if x = c then d else x))

/-- JS `s.includes(pat)` / Python `pat in s`: substring containment. -/
def strContains (s pat : String) : Bool :=
  s.data.tails.any (fun t => pat.data.isPrefixOf t)

/-- JS `s.startsWith(pre)` / Python `s.startswith(pre)`. -/
def jsStartsWith (s pre : String) : Bool := pre.data.isPrefixOf s.data

/-- JS `s.split(c)` for a one-character separator (auxiliary worker). -/
def splitOnCharAux (c : Char) : List Char → List Char → List (List Char)
  | [], acc => [acc.reverse]
  | x :: xs, acc =>
    if x = c then acc.reverse :: splitOnCharAux c xs []
    else splitOnCharAux c xs (x :: acc)

/-- JS `s.split(c)` for a one-character separator: `"".split(c) = [""]`. -/
def splitOnChar (s : String) (c : Char) : List String :=
  (splitOnCharAux c s.data []).map String.mk

/-- Python `s.upper()` (ASCII fields only in this code base). -/
def pyUpper (s : String) : String := String.mk (s.data.map Char.toUpper)

/-! ### Scraped data model

`Listing` is the dict shape produced by both stage-5 scraping scripts,
with fields title, listing_url, image_url and price. -/

structure Listing where
  title : String
  listing_url : String
  image_url : String
  price : String
deriving DecidableEq, Repr

/-! ### Stage 5 — `Step05SearchResults._scrape_all_listings`

The two `browser.js` scripts are embedded as pure functions over the DOM
content they read.  A `schema.org/ListItem` element is modelled by the
attribute values the primary script queries; a `card-container` element by
those the fallback script queries.  `leafTexts` lists, in document order,
the `textContent` of the childless descendant nodes of the element (the only
nodes the price loop can select). -/

structure MetaImg where
  src : String
  dataSrc : String
deriving DecidableEq, Repr

structure SchemaListItem where
  nameMeta : Option String
  urlMeta : Option String
  img : Option MetaImg
  leafTexts : List String
deriving DecidableEq, Repr

/-- Price loop of both scripts: first leaf text node containing a dollar sign,
trimmed and sliced to 100 characters; empty string when none exists. -/
def leafPrice (leafTexts : List String) : String :=
  match leafTexts.find? (fun t => strContains t "$") with
  | some t => pyTake (jsTrim t) 100
  | none => ""

/-- One iteration of the `forEach` of the primary script: push a listing when the
`meta[itemprop=name]` content is a non-empty string. -/
def scrapePrimaryItem (el : SchemaListItem) : Option Listing :=
  let name := (el.nameMeta).getD ""
  if name ≠ "" then
    some { title := name
         , listing_url := (el.urlMeta).getD ""
         , image_url := match el.img with
                        | some i => if i.src ≠ "" then i.src else i.dataSrc
                        | none => ""
         , price := leafPrice el.leafTexts }
  else none

/-- Primary extraction: schema.org structured data, `out.slice(0, 20)`. -/
def scrape_primary (items : List SchemaListItem) : List Listing :=
  (items.filterMap scrapePrimaryItem).take 20

structure CardLink where
  ariaLabel : String
  href : String
deriving DecidableEq, Repr

structure CardContainer where
  link : Option CardLink
  imgSrc : Option String
  leafTexts : List String
  innerText : String
deriving DecidableEq, Repr

/-- One iteration of the `forEach` of the fallback script over
`[data-testid=card-container]` elements. -/
def scrapeFallbackItem (card : CardContainer) : Option Listing :=
  let firstLine := (splitOnChar card.innerText '\n').headD ""
  let title := match card.link with
               | some l => if l.ariaLabel ≠ "" then l.ariaLabel else firstLine
               | none => firstLine
  if title ≠ "" && jsTrim title ≠ "" then
    some { title := pyTake (jsTrim title) 200
         , listing_url := match card.link with
                          | some l => l.href
                          | none => ""
         , image_url := (card.imgSrc).getD ""
         , price := leafPrice card.leafTexts }
  else none

/-- Fallback extraction: card-container data-testid, `out.slice(0, 20)`. -/
def scrape_fallback (cards : List CardContainer) : List Listing :=
  (cards.filterMap scrapeFallbackItem).take 20

/-- The results page content visible to the two extraction scripts. -/
structure ResultsPage where
  listItems : List SchemaListItem
  cards : List CardContainer
deriving DecidableEq, Repr

/-- Which extraction script `_scrape_all_listings` executed, in order. -/
inductive ScrapeMethod
  | primary
  | fallback
deriving DecidableEq, Repr

/-- `Step05SearchResults._scrape_all_listings`: run the primary script; when
its result is non-empty (`if results:`) return it, otherwise run the
fallback script.  The second component records, in execution order, the
scripts that were actually run. -/
def scrape_all_listings (p : ResultsPage) : List Listing × List ScrapeMethod :=
  let results := scrape_primary p.listItems
  if results = [] then (scrape_fallback p.cards, [ScrapeMethod.primary, ScrapeMethod.fallback])
  else (results, [ScrapeMethod.primary])

/-! ### Stage 2 — `Step02AutoSuggestion._collect_suggestion_texts`

The page is modelled by the `inner_text` values of the elements each of the
three selectors resolves to (an element whose `inner_text()` call raises is
simply absent from the list, matching the per-item `try/except: pass`). -/

structure SuggestPage where
  options : List String
  listboxOptions : List String
  menuItems : List String
deriving DecidableEq, Repr

/-- the strip-and-collapse-newlines step of the inner loop. -/
def cleanText (it : String) : String := replaceChar (pyStrip it) '\n' ' '

/-- Inner loop over the items of one selector: strip, collapse newlines, keep
non-empty texts sliced to 200 characters. -/
def collectTexts (items : List String) : List String :=
  items.filterMap (fun it =>
    if cleanText it ≠ "" then some (pyTake (cleanText it) 200) else none)

/-- `_collect_suggestion_texts`: try the three selectors in order, return the
first non-empty harvest (`if texts: return texts`), else the empty list. -/
def collect_suggestion_texts (p : SuggestPage) : List String :=
  if collectTexts p.options ≠ [] then collectTexts p.options
  else if collectTexts p.listboxOptions ≠ [] then collectTexts p.listboxOptions
  else if collectTexts p.menuItems ≠ [] then collectTexts p.menuItems
  else []

/-! ### Stage 6 — `Step06ListingDetails._collect_gallery_images`

An `<img>` element is modelled by the four attribute values the JS reads:
`src`, `dataset.src`, `dataset.originalUri` (empty string when the attribute
is absent, matching JS falsiness) and the raw `srcset` string. -/

structure GalleryImg where
  src : String
  dataSrc : String
  dataOriginalUri : String
  srcset : String
deriving DecidableEq, Repr

/-- JS `Set.add`: insertion-order set represented as a duplicate-free list. -/
def setAdd (urls : List String) (u : String) : List String :=
  if u ∈ urls then urls else urls ++ [u]

/-- Inner `forEach` over `[img.src, img.dataset.src, img.dataset.originalUri]`. -/
def addAttrSrc (urls : List String) (src : String) : List String :=
  if src ≠ "" && strContains src "muscache.com" && !(jsStartsWith src "data:") then
    setAdd urls src
  else urls

/-- the trim-and-first-token step of the srcset loop. -/
def srcsetUrl (part : String) : String := (splitOnChar (jsTrim part) ' ').headD ""

/-- Inner `forEach` over the comma-separated parts of `img.srcset`. -/
def addSrcsetPart (urls : List String) (part : String) : List String :=
  if srcsetUrl part ≠ "" && strContains (srcsetUrl part) "muscache.com" then
    setAdd urls (srcsetUrl part)
  else urls

/-- The whole body of the outer `forEach` for one `<img>` element. -/
def galleryStep (urls : List String) (img : GalleryImg) : List String :=
  let urls1 := [img.src, img.dataSrc, img.dataOriginalUri].foldl addAttrSrc urls
  (splitOnChar img.srcset ',').foldl addSrcsetPart urls1

/-- `_collect_gallery_images`: collect gallery image URLs into a JS `Set`,
returned in insertion order (`[...urls]`). -/
def collect_gallery_images (imgs : List GalleryImg) : List String :=
  imgs.foldl galleryStep []

/-! ### Persistence — `DatabaseService` (`database_service.py`) and the
Django models of `models.py`.  Each model table is modelled as a list of
rows in insertion order; a save operation returns the rows it creates. -/

/-- Row of the `testing` table (`TestResult`, `test_case` max_length 255). -/
structure TestResultRow where
  test_case : String
  url : String
  passed : Bool
  comment : String
deriving DecidableEq, Repr

/-- `models.py`: `TestResult.test_case = models.CharField(max_length=255)`. -/
def test_case_max_length : Nat := 255

/-- `DatabaseService.save_result`: build the comment and create one row.
Only `url` is sliced (`url[:2048]`); `test_case` and `comment` are stored
as given. -/
def save_result (test_case url : String) (passed : Bool) (should_be found : String) :
    TestResultRow :=
  { test_case := test_case
  , url := pyTake url 2048
  , passed := passed
  , comment := "should be " ++ should_be ++ ", found " ++ found }

/-- Row of the `suggestion_data` table. -/
structure SuggestionRow where
  text : String
  search_query : String
deriving DecidableEq, Repr

/-- `DatabaseService.save_suggestions`: one row per non-blank text,
with `text[:512]` and `query[:255]`. -/
def save_suggestions (texts : List String) (query : String) : List SuggestionRow :=
  (texts.filter (fun t => pyStrip t ≠ "")).map
    (fun t => { text := pyTake t 512, search_query := pyTake query 255 })

/-- Row of the `listing_data` table (`ListingData`). -/
structure ListingRow where
  title : String
  price : String
  image_url : String
  listing_url : String
deriving DecidableEq, Repr

/-- `DatabaseService.save_listings`: keep items with a truthy `title`,
slice every field to its model limit. -/
def save_listings (listings : List Listing) : List ListingRow :=
  (listings.filter (fun item => item.title ≠ "")).map
    (fun item =>
      { title := pyTake item.title 512
      , price := pyTake item.price 100
      , image_url := pyTake item.image_url 2048
      , listing_url := pyTake item.listing_url 2048 })

/-- One entry of the network-log buffer of the browser as passed to
`save_network_logs` (dict with `url`, `method`, `status_code`,
`resource_type`; `.get` defaults already applied). -/
structure NetLogEntry where
  url : String
  method : String
  status_code : Option Int
  resource_type : String
deriving DecidableEq, Repr

/-- Row of the `network_logs` table. -/
structure NetworkRow where
  url : String
  method : String
  status_code : Option Int
  resource_type : String
deriving DecidableEq, Repr

/-- `_VALID_METHODS` of `database_service.py`. -/
def VALID_METHODS : List String := ["GET", "POST", "PUT", "DELETE", "PATCH", "OPTIONS"]

/-- `DatabaseService.save_network_logs`: skip empty / `data:` / `blob:` URLs,
normalise the method, slice `resource_type[:50]`; the `url` itself is stored
without truncation. -/
def save_network_logs (logs : List NetLogEntry) : List NetworkRow :=
  logs.filterMap (fun log =>
    if log.url = "" || jsStartsWith log.url "data:" || jsStartsWith log.url "blob:" then none
    else
      let m := pyUpper log.method
      let m := if VALID_METHODS.contains m then m else "GET"
      some { url := log.url
           , method := m
           , status_code := log.status_code
           , resource_type := pyTake log.resource_type 50 })

/-- One entry of the console-log buffer (`level`, `message`, `source`). -/
structure ConsoleEntry where
  level : String
  message : String
  source : String
deriving DecidableEq, Repr

/-- Row of the `console_logs` table. -/
structure ConsoleRow where
  level : String
  message : String
  source : String
deriving DecidableEq, Repr

/-- The `level_map` dict lookup with default INFO. -/
def level_map (l : String) : String :=
  if l = "LOG" ∨ l = "INFO" then "INFO"
  else if l = "WARNING" ∨ l = "WARN" then "WARNING"
  else if l = "ERROR" then "ERROR"
  else if l = "DEBUG" then "DEBUG"
  else "INFO"

/-- `DatabaseService.save_console_logs`: map the level, slice
`message[:2000]` and `source[:512]`. -/
def save_console_logs (logs : List ConsoleEntry) : List ConsoleRow :=
  logs.map (fun log =>
    { level := level_map (pyUpper log.level)
    , message := pyTake log.message 2000
    , source := pyTake log.source 512 })

/-! ### Browser service — `navigate` and `take_screenshot` -/

/-- The page state the navigation layer observes: the current page URL
(`self.page.url or ""`). -/
structure BrowserSt where
  url : String
deriving DecidableEq, Repr

/-- Observable browser / database effects of a step, in execution order. -/
inductive Ev
  | saveRes (test_case url : String) (passed : Bool) (should_be found : String)
  | nav (url : String)
  | extract
  | persist
deriving DecidableEq, Repr

/-- `BrowserService.navigate`: skip when the current URL (non-empty after
`rstrip("/")`) equals the target after `rstrip("/")`; otherwise `goto(url)`.
The event list records whether a `goto` was performed. -/
def navigate (st : BrowserSt) (url : String) : BrowserSt × List Ev :=
  let current := rstripSlashes st.url
  let target := rstripSlashes url
  if current ≠ "" && current = target then (st, [])
  else ({ st with url := url }, [Ev.nav url])

/-- `BrowserService.take_screenshot`: screenshots are disabled; returns the
empty string, touches no state, performs no action. -/
def take_screenshot (_name : String) (st : BrowserSt) : String × BrowserSt × List Ev :=
  ("", st, [])

/-! ### Stage 6 — `Step06ListingDetails` run, navigation helper and upsert -/

/-- The detail record built by stage 6: title, subtitle, image_urls, url. -/
structure DetailResult where
  title : String
  subtitle : String
  image_urls : List String
  url : String
deriving DecidableEq, Repr

/-- Key predicate of the Django `update_or_create(listing_url=...)` lookup. -/
def urlMatches (url : String) (r : ListingRow) : Bool := r.listing_url = url

/-- Django `ListingData.objects.update_or_create(listing_url=url, defaults=...)`:
update the unique matching row in place, or create a new row when none
matches.  When several rows match, Django raises `MultipleObjectsReturned`,
which the `except` clause of `_persist` swallows — the store is left unchanged. -/
def update_or_create (store : List ListingRow) (url dTitle dPrice dImage : String) :
    List ListingRow :=
  match store.filter (urlMatches url) with
  | [] => store ++ [{ title := dTitle, price := dPrice, image_url := dImage, listing_url := url }]
  | [_] => store.map (fun r =>
      if urlMatches url r then
        { r with title := dTitle, price := dPrice, image_url := dImage }
      else r)
  | _ => store

/-- `Step06ListingDetails._persist`: upsert keyed on the page URL when the
captured title is non-empty (the image default is the sliced head of the
image list, or the empty string when the list is empty); otherwise nothing is written. -/
def persistDetail (store : List ListingRow) (result : DetailResult) : List ListingRow :=
  if result.title ≠ "" then
    update_or_create store (pyTake result.url 2048) (pyTake result.title 512) ""
      (match result.image_urls.head? with
       | some i => pyTake i 2048
       | none => "")
  else store

/-- Environment resolving the randomised choices and page reads of stage 6:
the index drawn by each `random.choice`, the hrefs of the room links on the
current page, the visible `h1`/`h2` texts (none = not visible / lookup
error) and the `<img>` elements of the details page. -/
structure Step06Env where
  pickListing : Nat
  roomLinks : List String
  pickLink : Nat
  h1 : Option String
  h2Overview : Option String
  h2Plugin : Option String
  h2Generic : Option String
  galleryImgs : List GalleryImg
deriving Repr

/-- Link-click fallback of `_navigate_to_listing`: pick a random entry of the
first ten room links and navigate to it. -/
def navFallbackLinks (env : Step06Env) (st : BrowserSt) : Bool × BrowserSt × List Ev :=
  let links := env.roomLinks
  if links ≠ [] then
    let firstTen := links.take 10
    let href := firstTen.getD (env.pickLink % firstTen.length) ""
    if href ≠ "" then
      let href := if !(jsStartsWith href "http") then "https://www.airbnb.com" ++ href else href
      let (st', evs) := navigate st href
      (strContains st'.url "/rooms/", st', Ev.extract :: evs)
    else (false, st, [Ev.extract])
  else (false, st, [Ev.extract])

/-- `Step06ListingDetails._navigate_to_listing`: direct navigation when the
listing has a `/rooms/` URL, otherwise click a random room link. -/
def navigate_to_listing (env : Step06Env) (st : BrowserSt) (listing : Listing) :
    Bool × BrowserSt × List Ev :=
  let listing_url := listing.listing_url
  if listing_url ≠ "" then
    let listing_url :=
      if !(jsStartsWith listing_url "http") then "https://www.airbnb.com" ++ listing_url
      else listing_url
    if strContains listing_url "/rooms/" then
      let (st', evs) := navigate st listing_url
      (strContains st'.url "/rooms/", st', evs)
    else navFallbackLinks env st
  else navFallbackLinks env st

/-- `Step06ListingDetails._get_h1_title`. -/
def get_h1_title (env : Step06Env) : String :=
  match env.h1 with
  | some t => let txt := pyStrip t; if txt ≠ "" then txt else ""
  | none => ""

/-- One selector attempt of `_get_h2_subtitle`. -/
def tryH2 : Option String → Option String
  | some t => let txt := pyStrip t; if txt ≠ "" then some txt else none
  | none => none

/-- `Step06ListingDetails._get_h2_subtitle`: three selectors in order. -/
def get_h2_subtitle (env : Step06Env) : String :=
  match tryH2 env.h2Overview with
  | some t => t
  | none =>
    match tryH2 env.h2Plugin with
    | some t => t
    | none =>
      match tryH2 env.h2Generic with
      | some t => t
      | none => ""

/-- `Step06ListingDetails.run`: on an empty listings input, record one
failing assertion and return the empty record; otherwise pick a random
listing, open its details page, capture title/subtitle/gallery, record the
assertions and persist the detail record.  Output: the step result (`none`
models the empty Python dict), the final browser state, the listing store after the
run and the event trace. -/
def step06_run (env : Step06Env) (st : BrowserSt) (store : List ListingRow)
    (listings : List Listing) :
    Option DetailResult × BrowserSt × List ListingRow × List Ev :=
  match listings with
  | [] =>
    (none, st, store,
      [Ev.saveRes "Listing Details Page Load" st.url false
        "One listing to be randomly selected and its details page opened"
        "No listings were scraped in Step 05 — cannot proceed"])
  | l :: ls =>
    let listing := (l :: ls).getD (env.pickListing % (l :: ls).length) l
    let (_opened, st1, evs1) := navigate_to_listing env st listing
    let current_url := st1.url
    let page_ok := strContains current_url "/rooms/"
    let ev2 := Ev.saveRes "Listing Details Page Load" current_url page_ok
      "Listing details page to open with /rooms/ in URL and full listing visible"
      ("Page " ++ (if page_ok then "opened successfully" else "FAILED to open") ++ ": "
        ++ pyTake current_url 100)
    let title := get_h1_title env
    let subtitle := get_h2_subtitle env
    let ev3 := Ev.saveRes "Listing Title and Subtitle Capture" current_url (title ≠ "")
      "Listing h1 title and h2 subtitle to be captured from the details page"
      ("h1 Title: " ++ pyTake title 80 ++ " | h2 Subtitle: " ++ pyTake subtitle 80)
    let image_urls := collect_gallery_images env.galleryImgs
    let ev4 := Ev.saveRes "Listing Gallery Image URLs Collection" current_url
      (image_urls ≠ [])
      "All available gallery image URLs to be collected from the listing photo section"
      ("Collected " ++ toString image_urls.length ++ " image URLs from the listing gallery")
    let result : DetailResult :=
      { title := title, subtitle := subtitle, image_urls := image_urls, url := current_url }
    let store' := persistDetail store result
    (some result, st1, store',
      evs1 ++ [ev2, Ev.extract, Ev.extract, ev3, Ev.extract, ev4, Ev.persist])

/-! ### Orchestrator — `Command.handle` of `run_airbnb_automation.py` -/

/-- Session-level events visible at the orchestrator boundary. -/
inductive RunEv
  | record (test_case url : String) (passed : Bool) (found : String)
  | teardown
deriving DecidableEq, Repr

/-- How the management command terminates. -/
inductive ExitStatus
  | completed
  | reraised (desc : String)
deriving DecidableEq, Repr

/-- How the step sequence (`_run_journey` inside the `with` block) ends:
normally, by `KeyboardInterrupt`, or with an unexpected exception whose
`str(exc)` is `desc`. -/
inductive JourneyOutcome
  | ok
  | interrupt
  | fault (desc : String)
deriving DecidableEq, Repr

/-- `Command.handle`: record the session-start assertion, run the journey
inside the browser context manager (whose `__exit__` — the teardown — runs
while the `with` block unwinds, before any `except` body), then dispatch on
the outcome: a `KeyboardInterrupt` records its own assertion and the command
completes; any other exception records a failing session-end assertion
carrying `str(exc)[:250]` and is re-raised. -/
def handle (headless mobile : Bool) (target_url : String)
    (journeyEvents : List RunEv) (outcome : JourneyOutcome) : List RunEv × ExitStatus :=
  let start := RunEv.record "Automation Session Start" target_url true
    ("Session started — " ++ (if mobile then "Mobile" else "Desktop") ++ " | "
      ++ (if headless then "Headless" else "Visible"))
  match outcome with
  | JourneyOutcome.ok => (start :: journeyEvents ++ [RunEv.teardown], ExitStatus.completed)
  | JourneyOutcome.interrupt =>
    (start :: journeyEvents ++
      [RunEv.teardown,
       RunEv.record "Automation Session End" target_url false
         "Keyboard interrupt — user stopped the automation"],
     ExitStatus.completed)
  | JourneyOutcome.fault desc =>
    (start :: journeyEvents ++
      [RunEv.teardown,
       RunEv.record "Automation Session End" target_url false
         ("Automation crashed: " ++ pyTake desc 250)],
     ExitStatus.reraised desc)

/-- Is this event an `Automation Session End` assertion record? -/
def isSessionEnd : RunEv → Bool
  | RunEv.record tc _ _ _ => tc = "Automation Session End"
  | RunEv.teardown => false

/-- Repeat one character `n` times (the `'═' * 62` banner pieces). -/
def repeatChar (c : Char) (n : Nat) : String := String.mk (List.replicate n c)

/-- `Command._print_final_summary`: the exact text written at the end of a
completed run, counting assertions from the persisted store. -/
def print_final_summary (total passed : Nat) : String :=
  "\n" ++ repeatChar '═' 62 ++ "\n" ++
  "  ✅  AUTOMATION COMPLETE\n" ++
  repeatChar '─' 62 ++ "\n" ++
  "  Total Test Cases : " ++ toString total ++ "\n" ++
  "  Passed  ✅       : " ++ toString passed ++ "\n" ++
  "  Failed  ❌       : " ++ toString (total - passed) ++ "\n" ++
  repeatChar '─' 62 ++ "\n" ++
  "  📁  Screenshots saved in : ./screenshots/\n" ++
  "  🌐  Admin panel at       : http://127.0.0.1:8000/admin/\n" ++
  repeatChar '═' 62 ++ "\n"

/-! ### Event classifiers used by the claim statements -/

/-- Is this a `save_result` (assertion record) event? -/
def isSaveResEv : Ev → Bool
  | Ev.saveRes _ _ _ _ _ => true
  | _ => false

/-- Is this a failing assertion record? -/
def isFailingSaveEv : Ev → Bool
  | Ev.saveRes _ _ p _ _ => !p
  | _ => false

/-- Is this a navigation (`goto`) event? -/
def isNavEv : Ev → Bool
  | Ev.nav _ => true
  | _ => false

/-- Is this a page-content extraction event? -/
def isExtractEv : Ev → Bool
  | Ev.extract => true
  | _ => false

/-- Is this a persistence event? -/
def isPersistEv : Ev → Bool
  | Ev.persist => true
  | _ => false

/-- The row `persistDetail` writes for a detail record. -/
def persistRow (r : DetailResult) : ListingRow :=
  { title := pyTake r.title 512
  , price := ""
  , image_url := match r.image_urls.head? with
                 | some i => pyTake i 2048
                 | none => ""
  , listing_url := pyTake r.url 2048 }

/-! ### Concrete sample inputs used to evaluate the definitions -/

/-- A results page whose primary (schema.org) extraction succeeds. -/
def samplePage : ResultsPage :=
  { listItems := [{ nameMeta := some "Cozy flat in town"
                  , urlMeta := some "/rooms/12345"
                  , img := some { src := "https://a.muscache.com/im/1.jpg", dataSrc := "" }
                  , leafTexts := ["$120 per night"] }]
  , cards := [{ link := some { ariaLabel := "Card flat", href := "https://www.airbnb.com/rooms/9" }
              , imgSrc := some "https://a.muscache.com/im/9.jpg"
              , leafTexts := ["$99"]
              , innerText := "Card flat\n$99" }] }

/-- A suggestion dropdown holding 21 non-blank options. -/
def manySuggestions : SuggestPage :=
  { options := List.replicate 21 "x", listboxOptions := [], menuItems := [] }

/-- One details-page image exposing the same CDN URL through three
attributes and a srcset entry. -/
def sampleImgs : List GalleryImg :=
  [{ src := "https://a.muscache.com/im/1.jpg"
   , dataSrc := "https://a.muscache.com/im/1.jpg"
   , dataOriginalUri := ""
   , srcset := "https://a.muscache.com/im/1.jpg 2x" }]

/-- A stage-6 detail record with an empty page URL. -/
def detailA : DetailResult :=
  { title := "Listing A", subtitle := "", image_urls := [], url := "" }

/-- A second stage-6 detail record with the same (empty) page URL. -/
def detailB : DetailResult :=
  { title := "Listing B", subtitle := "", image_urls := [], url := "" }

/-- A 300-character test-case name. -/
def longCase : String := String.mk (List.replicate 300 'a')

/-- A stage-6 environment with nothing on the page. -/
def sampleEnv : Step06Env :=
  { pickListing := 0, roomLinks := [], pickLink := 0, h1 := none
  , h2Overview := none, h2Plugin := none, h2Generic := none, galleryImgs := [] }

/-- A browser state sitting on the search results page. -/
def stResults : BrowserSt := { url := "https://www.airbnb.com/s/homes/" }

/-! ### Helper lemmas -/

theorem pyTake_length_le (s : String) (n : Nat) : (pyTake s n).length ≤ n := by
  show (s.data.take n).length ≤ n
  exact List.length_take_le n s.data

theorem setAdd_nodup {urls : List String} (u : String) (h : urls.Nodup) :
    (setAdd urls u).Nodup := by
  unfold setAdd
  split
  · exact h
  · next hu =>
    rw [List.nodup_append]
    exact ⟨h, List.nodup_singleton u, fun a ha hmem => by
      simp at hmem; subst hmem; exact hu ha⟩

theorem foldl_nodup {α : Type} (f : List String → α → List String)
    (hf : ∀ acc a, acc.Nodup → (f acc a).Nodup) :
    ∀ (xs : List α) (acc : List String), acc.Nodup → (xs.foldl f acc).Nodup := by
  intro xs
  induction xs with
  | nil => intro acc h; exact h
  | cons x xs ih => intro acc h; exact ih _ (hf _ _ h)

theorem addAttrSrc_nodup (acc : List String) (s : String) (h : acc.Nodup) :
    (addAttrSrc acc s).Nodup := by
  unfold addAttrSrc
  split
  · exact setAdd_nodup _ h
  · exact h

theorem addSrcsetPart_nodup (acc : List String) (s : String) (h : acc.Nodup) :
    (addSrcsetPart acc s).Nodup := by
  unfold addSrcsetPart
  split
  · exact setAdd_nodup _ h
  · exact h

theorem galleryStep_nodup (acc : List String) (img : GalleryImg) (h : acc.Nodup) :
    (galleryStep acc img).Nodup := by
  unfold galleryStep
  exact foldl_nodup _ addSrcsetPart_nodup _ _ (foldl_nodup _ addAttrSrc_nodup _ _ h)

theorem strContains_isInfix (s pat : String) :
    strContains s pat = true ↔ pat.data <:+: s.data := by
  unfold strContains
  rw [List.any_eq_true]
  constructor
  · rintro ⟨t, ht, hp⟩
    rw [List.mem_tails] at ht
    have hpre := List.isPrefixOf_iff_prefix.mp hp
    exact (hpre.isInfix).trans ht.isInfix
  · rintro ⟨a, b, hab⟩
    refine ⟨pat.data ++ b, ?_, ?_⟩
    · rw [List.mem_tails]
      exact ⟨a, by rw [← hab, List.append_assoc]⟩
    · exact List.isPrefixOf_iff_prefix.mpr ⟨b, rfl⟩

theorem strContains_append_right (x y pat : String) (h : strContains y pat = true) :
    strContains (x ++ y) pat = true := by
  rw [strContains_isInfix] at h ⊢
  show pat.data <:+: x.data ++ y.data
  exact h.trans (List.suffix_append x.data y.data).isInfix

theorem strContains_append_left (x y pat : String) (h : strContains x pat = true) :
    strContains (x ++ y) pat = true := by
  rw [strContains_isInfix] at h ⊢
  show pat.data <:+: x.data ++ y.data
  exact h.trans (List.prefix_append x.data y.data).isInfix

theorem collectTexts_length_le (items : List String) :
    ∀ t ∈ collectTexts items, t.length ≤ 200 := by
  intro t ht
  unfold collectTexts at ht
  rw [List.mem_filterMap] at ht
  obtain ⟨it, _, hit⟩ := ht
  split at hit
  · cases hit
    exact pyTake_length_le _ _
  · cases hit

theorem uoc_of_fresh (store : List ListingRow) (url t p i : String)
    (h : store.countP (urlMatches url) = 0) :
    update_or_create store url t p i =
      store ++ [{ title := t, price := p, image_url := i, listing_url := url }] := by
  have hf : store.filter (urlMatches url) = [] := by
    have := (List.countP_eq_length_filter (p := urlMatches url) store)
    rw [this] at h
    exact List.length_eq_zero.mp h
  simp [update_or_create, hf]

theorem uoc_of_single (store : List ListingRow) (url t p i : String) (x : ListingRow)
    (hx : store.filter (urlMatches url) = [x]) :
    update_or_create store url t p i =
      store.map (fun r =>
        if urlMatches url r then { r with title := t, price := p, image_url := i } else r) := by
  simp [update_or_create, hx]

theorem countP_update_map (store : List ListingRow) (url t p i : String) :
    (store.map (fun r =>
      if urlMatches url r then { r with title := t, price := p, image_url := i } else r)).countP
        (urlMatches url) = store.countP (urlMatches url) := by
  rw [List.countP_map]
  apply List.countP_congr
  intro r _
  by_cases h : r.listing_url = url
  · simp [urlMatches, h]
  · simp [urlMatches, h]

theorem persistDetail_of_fresh (store : List ListingRow) (r : DetailResult)
    (ht : r.title ≠ "") (h : store.countP (urlMatches (pyTake r.url 2048)) = 0) :
    persistDetail store r = store ++ [persistRow r] := by
  unfold persistDetail persistRow
  rw [if_pos ht]
  exact uoc_of_fresh _ _ _ _ _ h

/-! ### Claim theorems -/

/-- C1: in every run of the stage-5 listing scrape, the secondary
(card-container) extraction runs if and only if the primary
(schema.org/ListItem) extraction returns zero items: a non-empty primary
result is returned as-is with the secondary never executed, and an empty
primary result triggers the secondary before any (possibly empty) result is
returned. -/
theorem scrape_secondary_iff_primary_empty (p : ResultsPage) :
    (scrape_primary p.listItems ≠ [] →
      scrape_all_listings p = (scrape_primary p.listItems, [ScrapeMethod.primary]))
    ∧ (scrape_primary p.listItems = [] →
      scrape_all_listings p =
        (scrape_fallback p.cards, [ScrapeMethod.primary, ScrapeMethod.fallback]))
    ∧ (ScrapeMethod.fallback ∈ (scrape_all_listings p).2 ↔
        scrape_primary p.listItems = []) := by
  unfold scrape_all_listings
  by_cases h : scrape_primary p.listItems = []
  · simp [h]
  · simp [h]

/-- C1 witness: on the sample results page the primary extraction succeeds,
so only the primary script runs. -/
theorem scrape_secondary_iff_primary_empty_w :
    scrape_all_listings samplePage =
      (scrape_primary samplePage.listItems, [ScrapeMethod.primary]) :=
  (scrape_secondary_iff_primary_empty samplePage).1 (by decide)

/-- C2 counterexample: the stage-2 suggestion harvest does not cap the item
count at 20 — a dropdown with 21 non-blank options yields 21 harvested
texts. -/
theorem suggestion_harvest_exceeds_twenty :
    (collect_suggestion_texts manySuggestions).length = 21 ∧ ¬ ((21 : Nat) ≤ 20) := by
  constructor
  · decide
  · decide

/-- C2 (amended): stage-5 listing scraping returns at most 20 items at both
the primary and the fallback extraction level; stage-2 suggestion
harvesting has no item-count cap, but each harvested text is truncated to
200 characters. -/
theorem extraction_caps :
    (∀ items : List SchemaListItem, (scrape_primary items).length ≤ 20)
    ∧ (∀ cards : List CardContainer, (scrape_fallback cards).length ≤ 20)
    ∧ (∀ p : ResultsPage, (scrape_all_listings p).1.length ≤ 20)
    ∧ (∀ sp : SuggestPage, ∀ t ∈ collect_suggestion_texts sp, t.length ≤ 200) := by
  refine ⟨?_, ?_, ?_, ?_⟩
  · intro items
    exact List.length_take_le _ _
  · intro cards
    exact List.length_take_le _ _
  · intro p
    unfold scrape_all_listings
    by_cases h : scrape_primary p.listItems = []
    · rw [if_pos h]
      exact List.length_take_le _ _
    · rw [if_neg h]
      exact List.length_take_le _ _
  · intro sp t ht
    unfold collect_suggestion_texts at ht
    split at ht
    · exact collectTexts_length_le _ t ht
    · split at ht
      · exact collectTexts_length_le _ t ht
      · split at ht
        · exact collectTexts_length_le _ t ht
        · cases ht

/-- C2 witness: the caps evaluated on the sample page and the large
suggestion dropdown. -/
theorem extraction_caps_w :
    (scrape_all_listings samplePage).1.length ≤ 20 :=
  extraction_caps.2.2.1 samplePage

/-- C6: stage-6 gallery extraction returns a duplicate-free list of image
URLs — any URL discovered through several sources (src, lazy-load data
attribute, srcset entry) appears exactly once in the output. -/
theorem gallery_images_no_duplicates (imgs : List GalleryImg) :
    (collect_gallery_images imgs).Nodup
    ∧ ∀ u ∈ collect_gallery_images imgs, (collect_gallery_images imgs).count u = 1 := by
  have hn : (collect_gallery_images imgs).Nodup :=
    foldl_nodup _ galleryStep_nodup imgs [] List.nodup_nil
  exact ⟨hn, fun u hu => List.count_eq_one_of_mem hn hu⟩

/-- C6 witness: an image exposing the same CDN URL through `src`,
`data-src` and `srcset` contributes it exactly once. -/
theorem gallery_images_no_duplicates_w :
    (collect_gallery_images sampleImgs).count "https://a.muscache.com/im/1.jpg" = 1 :=
  (gallery_images_no_duplicates sampleImgs).2 "https://a.muscache.com/im/1.jpg" (by decide)

/-- C8 counterexample: with the current page URL `"/"` and target `"/"`, the
two URLs are equal after stripping trailing slashes, yet `navigate` still
performs a `goto` (the code additionally requires the stripped current URL
to be non-empty before skipping). -/
theorem navigate_strip_equal_still_navigates :
    rstripSlashes "/" = rstripSlashes "/"
    ∧ (navigate { url := "/" } "/").2 = [Ev.nav "/"]
    ∧ ¬ ((navigate { url := "/" } "/").2 = []) := by
  refine ⟨rfl, ?_, ?_⟩
  · decide
  · decide

/-- C8 (amended): `navigate(url)` performs no navigation and leaves the page
state unchanged exactly when the current page URL equals the target after
stripping trailing slashes from both **and** the stripped current URL is
non-empty; otherwise it navigates the page to `url`. -/
theorem navigate_same_url_short_circuit (st : BrowserSt) (url : String) :
    (rstripSlashes st.url ≠ "" → rstripSlashes st.url = rstripSlashes url →
      navigate st url = (st, []))
    ∧ ((rstripSlashes st.url = "" ∨ rstripSlashes st.url ≠ rstripSlashes url) →
      navigate st url = ({ st with url := url }, [Ev.nav url])) := by
  constructor
  · intro h1 h2
    simp [navigate]
    exact ⟨h1, h2⟩
  · intro h
    simp [navigate]
    intro hne
    rcases h with h | h
    · exact absurd h hne
    · exact h

/-- C8 witness: a same-URL navigation differing only in a trailing slash is
skipped. -/
theorem navigate_same_url_short_circuit_w :
    navigate { url := "https://www.airbnb.com/" } "https://www.airbnb.com" =
      ({ url := "https://www.airbnb.com/" }, []) :=
  (navigate_same_url_short_circuit { url := "https://www.airbnb.com/" }
    "https://www.airbnb.com").1 (by decide) (by decide)

/-- C9: `take_screenshot(name)` always returns the empty string, performs no
browser action and leaves the state unchanged, while the final summary text
still reports screenshots as saved under `./screenshots/`. -/
theorem screenshots_disabled_yet_reported (nm : String) (st : BrowserSt) (total passed : Nat) :
    take_screenshot nm st = ("", st, [])
    ∧ strContains (print_final_summary total passed)
        "Screenshots saved in : ./screenshots/" = true := by
  refine ⟨rfl, ?_⟩
  unfold print_final_summary
  apply strContains_append_left
  apply strContains_append_left
  apply strContains_append_left
  apply strContains_append_right
  decide

/-- C10: `save_listings` persists exactly the scraped items whose title is
present and non-empty, each with title/price/image_url/listing_url sliced to
the model field limits; items with an empty title are silently dropped. -/
theorem save_listings_filter_and_truncation (listings : List Listing) :
    ((save_listings listings).length = listings.countP (fun i => i.title ≠ ""))
    ∧ (∀ row, row ∈ save_listings listings ↔ ∃ item, item ∈ listings ∧ item.title ≠ "" ∧
        row = { title := pyTake item.title 512
              , price := pyTake item.price 100
              , image_url := pyTake item.image_url 2048
              , listing_url := pyTake item.listing_url 2048 })
    ∧ (∀ row ∈ save_listings listings,
        row.title.length ≤ 512 ∧ row.price.length ≤ 100 ∧ row.image_url.length ≤ 2048
        ∧ row.listing_url.length ≤ 2048) := by
  refine ⟨?_, ?_, ?_⟩
  · unfold save_listings
    rw [List.length_map]
    exact (List.countP_eq_length_filter _ _).symm
  · intro row
    simp only [save_listings, List.mem_map, List.mem_filter, decide_eq_true_eq]
    constructor
    · rintro ⟨item, ⟨hm, ht⟩, hrow⟩
      exact ⟨item, hm, ht, hrow.symm⟩
    · rintro ⟨item, hm, ht, hrow⟩
      exact ⟨item, ⟨hm, ht⟩, hrow.symm⟩
  · intro row hrow
    simp only [save_listings, List.mem_map] at hrow
    obtain ⟨item, _, hr⟩ := hrow
    subst hr
    exact ⟨pyTake_length_le _ _, pyTake_length_le _ _, pyTake_length_le _ _,
      pyTake_length_le _ _⟩

/-- C10 witness: a two-item scrape where one item has an empty title stores
exactly the titled item, within all field limits. -/
theorem save_listings_filter_and_truncation_w :
    { title := "Cozy", price := "", image_url := "", listing_url := "" } ∈
      save_listings [{ title := "Cozy", price := "", image_url := "", listing_url := "" },
                     { title := "", price := "x", image_url := "", listing_url := "" }] :=
  ((save_listings_filter_and_truncation _).2.1 _).mpr
    ⟨{ title := "Cozy", price := "", image_url := "", listing_url := "" },
      by decide, by decide, by decide⟩

/-- C7 counterexample: `save_result` stores `test_case` verbatim — a
300-character test-case name is stored at length 300, above the model
`max_length` of 255, so the free-text fields of the assertion record are not all
length-capped before storage. -/
theorem save_result_test_case_uncapped :
    (save_result longCase "https://x" true "sb" "fd").test_case.length = 300
    ∧ ¬ (300 ≤ test_case_max_length) := by
  constructor
  · show longCase.length = 300
    show (List.replicate 300 'a').length = 300
    rw [List.length_replicate]
  · decide

/-- C7 (amended): the persistence operations cap exactly these free-text
fields before storage: `save_result` caps only `url` (2048) and stores
`test_case` (and the comment) verbatim; `save_suggestions` caps text (512)
and query (255); `save_listings` caps title (512), price (100) and both
URLs (2048); `save_network_logs` caps only `resource_type` (50) and stores
`url` verbatim; `save_console_logs` caps message (2000) and source (512). -/
theorem persistence_length_caps :
    (∀ tc url p sb fd, (save_result tc url p sb fd).url.length ≤ 2048
        ∧ (save_result tc url p sb fd).test_case = tc)
    ∧ (∀ texts query, ∀ row ∈ save_suggestions texts query,
        row.text.length ≤ 512 ∧ row.search_query.length ≤ 255)
    ∧ (∀ listings, ∀ row ∈ save_listings listings,
        row.title.length ≤ 512 ∧ row.price.length ≤ 100 ∧ row.image_url.length ≤ 2048
        ∧ row.listing_url.length ≤ 2048)
    ∧ (∀ logs, ∀ row ∈ save_network_logs logs,
        row.resource_type.length ≤ 50 ∧ ∃ log, log ∈ logs ∧ row.url = log.url)
    ∧ (∀ logs, ∀ row ∈ save_console_logs logs,
        row.message.length ≤ 2000 ∧ row.source.length ≤ 512) := by
  refine ⟨?_, ?_, ?_, ?_, ?_⟩
  · intro tc url p sb fd
    exact ⟨pyTake_length_le _ _, rfl⟩
  · intro texts query row hrow
    simp only [save_suggestions, List.mem_map] at hrow
    obtain ⟨t, _, hr⟩ := hrow
    subst hr
    exact ⟨pyTake_length_le _ _, pyTake_length_le _ _⟩
  · intro listings row hrow
    simp only [save_listings, List.mem_map] at hrow
    obtain ⟨item, _, hr⟩ := hrow
    subst hr
    exact ⟨pyTake_length_le _ _, pyTake_length_le _ _, pyTake_length_le _ _,
      pyTake_length_le _ _⟩
  · intro logs row hrow
    simp only [save_network_logs, List.mem_filterMap] at hrow
    obtain ⟨log, hm, hr⟩ := hrow
    split at hr
    · cases hr
    · cases hr
      exact ⟨pyTake_length_le _ _, log, hm, rfl⟩
  · intro logs row hrow
    simp only [save_console_logs, List.mem_map] at hrow
    obtain ⟨log, _, hr⟩ := hrow
    subst hr
    exact ⟨pyTake_length_le _ _, pyTake_length_le _ _⟩

/-- C7 witness: the caps evaluated on one console-log entry. -/
theorem persistence_length_caps_w :
    ({ level := "INFO", message := "m", source := "s" } : ConsoleRow).message.length ≤ 2000 :=
  (persistence_length_caps.2.2.2.2 [{ level := "INFO", message := "m", source := "s" }]
    { level := "INFO", message := "m", source := "s" } (by decide)).1

/-- C4: a stage-6 run on an empty listings input returns the empty detail
record, leaves the listing store untouched, records exactly one assertion —
a failing one — and performs no navigation, extraction or persistence
action, so the pipeline can continue. -/
theorem step06_empty_input_short_circuit (env : Step06Env) (st : BrowserSt)
    (store : List ListingRow) :
    (step06_run env st store []).1 = none
    ∧ (step06_run env st store []).2.1 = st
    ∧ (step06_run env st store []).2.2.1 = store
    ∧ (step06_run env st store []).2.2.2.countP isSaveResEv = 1
    ∧ (step06_run env st store []).2.2.2.countP isFailingSaveEv = 1
    ∧ (∀ e ∈ (step06_run env st store []).2.2.2,
        isNavEv e = false ∧ isExtractEv e = false ∧ isPersistEv e = false) := by
  refine ⟨rfl, rfl, rfl, rfl, rfl, ?_⟩
  intro e he
  simp only [step06_run, List.mem_singleton] at he
  subst he
  exact ⟨rfl, rfl, rfl⟩

/-- C4 witness: the empty-input short-circuit evaluated at a concrete
environment and store. -/
theorem step06_empty_input_short_circuit_w :
    (step06_run sampleEnv stResults [] []).1 = none :=
  (step06_empty_input_short_circuit sampleEnv stResults []).1

/-- C3 counterexample: two stage-6 persist calls with the same **empty**
listing_url and non-empty titles leave exactly one record in the store —
the second call matches and updates the empty-URL record in place instead
of creating a new one, so a persist with an empty listing_url does not
always create a new record. -/
theorem persist_empty_url_updates_in_place :
    detailA.url = "" ∧ detailB.url = ""
    ∧ persistDetail (persistDetail [] detailA) detailB =
        [{ title := "Listing B", price := "", image_url := "", listing_url := "" }]
    ∧ (persistDetail (persistDetail [] detailA) detailB).length = 1
    ∧ ¬ ((persistDetail (persistDetail [] detailA) detailB).length = 2) := by
  refine ⟨rfl, rfl, ?_, ?_, ?_⟩
  · decide
  · decide
  · decide

/-- C3 (amended): for any two stage-6 persist calls with equal listing_url
(empty or not) and non-empty titles, starting from a store holding no record
for that (truncated) URL, the store afterwards contains exactly one record
with that listing_url and has grown by exactly one row (the second call
updates in place); each such first persist creates a new record; a persist
call with an empty title writes nothing. -/
theorem stage6_upsert_keyed_on_listing_url (store : List ListingRow)
    (r1 r2 : DetailResult) (hurl : r1.url = r2.url)
    (ht1 : r1.title ≠ "") (ht2 : r2.title ≠ "")
    (hfresh : store.countP (urlMatches (pyTake r1.url 2048)) = 0) :
    (persistDetail (persistDetail store r1) r2).countP
        (urlMatches (pyTake r1.url 2048)) = 1
    ∧ (persistDetail (persistDetail store r1) r2).length = store.length + 1
    ∧ (persistDetail store r1).length = store.length + 1
    ∧ (∀ r : DetailResult, r.title = "" → persistDetail store r = store) := by
  have h1 : persistDetail store r1 = store ++ [persistRow r1] :=
    persistDetail_of_fresh store r1 ht1 hfresh
  have hkey : (persistRow r1).listing_url = pyTake r1.url 2048 := rfl
  have hcount1 : (store ++ [persistRow r1]).countP (urlMatches (pyTake r1.url 2048)) = 1 := by
    rw [List.countP_append, hfresh]
    simp [List.countP_cons, urlMatches, persistRow]
  have hkey2 : pyTake r2.url 2048 = pyTake r1.url 2048 := by rw [hurl]
  have hfil : ((store ++ [persistRow r1]).filter (urlMatches (pyTake r1.url 2048))).length = 1 := by
    rw [← List.countP_eq_length_filter]
    exact hcount1
  obtain ⟨x, hx⟩ := List.length_eq_one.mp hfil
  have h2 : persistDetail (store ++ [persistRow r1]) r2 =
      (store ++ [persistRow r1]).map (fun r =>
        if urlMatches (pyTake r1.url 2048) r then
          { r with title := pyTake r2.title 512, price := ""
                 , image_url := match r2.image_urls.head? with
                                | some i => pyTake i 2048
                                | none => "" }
        else r) := by
    unfold persistDetail
    rw [if_pos ht2, hkey2]
    exact uoc_of_single _ _ _ _ _ x hx
  refine ⟨?_, ?_, ?_, ?_⟩
  · rw [h1, h2, countP_update_map]
    exact hcount1
  · rw [h1, h2, List.length_map, List.length_append]
    rfl
  · rw [h1, List.length_append]
    rfl
  · intro r hr
    unfold persistDetail
    rw [if_neg]
    simp [hr]

/-- C3 witness: the upsert property evaluated on two persist calls sharing
an empty listing_url over an empty store. -/
theorem stage6_upsert_keyed_on_listing_url_w :
    (persistDetail (persistDetail [] detailA) detailB).countP
        (urlMatches (pyTake detailA.url 2048)) = 1 :=
  (stage6_upsert_keyed_on_listing_url [] detailA detailB rfl (by decide) (by decide)
    (by decide)).1

/-- C5: when the step sequence raises anything but a user interrupt, the
run trace of the orchestrator is exactly the trace of a completed run — which
ends with the guaranteed browser teardown — followed by a single failing
session-level assertion whose observed text carries the fault description
truncated to 250 characters, and the command re-raises the exception to the
caller. -/
theorem orchestrator_fault_path (headless mobile : Bool) (url : String)
    (evs : List RunEv) (desc : String) :
    (handle headless mobile url evs (JourneyOutcome.fault desc)).2 =
        ExitStatus.reraised desc
    ∧ (handle headless mobile url evs (JourneyOutcome.fault desc)).1 =
        (handle headless mobile url evs JourneyOutcome.ok).1 ++
          [RunEv.record "Automation Session End" url false
            ("Automation crashed: " ++ pyTake desc 250)]
    ∧ (handle headless mobile url evs JourneyOutcome.ok).1.getLast? =
        some RunEv.teardown
    ∧ (handle headless mobile url evs (JourneyOutcome.fault desc)).1.countP isSessionEnd =
        evs.countP isSessionEnd + 1
    ∧ (pyTake desc 250).length ≤ 250 := by
  refine ⟨rfl, ?_, ?_, ?_, pyTake_length_le _ _⟩
  · simp [handle]
  · show ((RunEv.record "Automation Session Start" url true
        ("Session started — " ++ (if mobile then "Mobile" else "Desktop") ++ " | "
          ++ (if headless then "Headless" else "Visible"))) ::
        (evs ++ [RunEv.teardown])).getLast? = some RunEv.teardown
    rw [← List.cons_append, List.getLast?_concat]
  · simp [handle, List.countP_cons, List.countP_append, isSessionEnd]

/-- C5 witness: the fault path evaluated for a concrete crash description. -/
theorem orchestrator_fault_path_w :
    (handle false false "https://www.airbnb.com" [] (JourneyOutcome.fault "boom")).2 =
      ExitStatus.reraised "boom" :=
  (orchestrator_fault_path false false "https://www.airbnb.com" [] "boom").1

/-- C9 witness: a concrete screenshot call is a no-op returning the empty
string. -/
theorem screenshots_disabled_yet_reported_w :
    take_screenshot "step05_01_results_page" stResults = ("", stResults, []) :=
  (screenshots_disabled_yet_reported "step05_01_results_page" stResults 10 7).1
